import Mathlib

/-!
# Verification of the sitewinder reactive component framework

Shallow embedding of `src/sitewinder.py` (Signal, Component render scheduling,
CSS scoping, marker ids, Router) together with theorems checking the
natural-language specification against the code.

Conventions used throughout:
* Python object references are modelled by numeric object ids (`Nat`);
  Python `a is b` is equality of ids.
* Python `==` is a user-overridable method that may also raise; it is
  modelled as a parameter `peq : Nat → Nat → Option Bool`, where `none`
  models `__eq__` raising an exception.
* Python `set` objects are modelled as `Finset Nat` of object ids.
* Fallible code returns `Except`.
-/

namespace Sitewinder

/-! ## Signal (sitewinder.py lines 102-146)

`Signal.__init__` stores `_value` and an empty subscriber set `_subs`.
`Signal.set` (lines 128-138):
    old = self._value
    if old is v or old == v: return
    self._value = v
    for cb in list(self._subs):
        try: cb(old, v)
        except ...: log
`Signal.subscribe` (lines 140-146): `self._subs.add(cb)`, returning an
unsubscribe closure that does `self._subs.discard(cb)`.
-/

structure PySignal where
  value : Nat
  subs : Finset Nat
  deriving DecidableEq

/-- Result of a `Signal.set` call that did not raise: the updated signal,
the set of subscriber callbacks invoked (each exactly once, Python iterates
`list(self._subs)`), and the `(old, new)` argument pair passed to each. -/
structure SetResult where
  state : PySignal
  calls : Finset Nat
  args : Nat × Nat
  deriving DecidableEq

/-- `Signal.set` (sitewinder.py lines 128-138).  The guard is the Python
short-circuit `old is v or old == v`: identity is checked first, so `__eq__`
(`peq`) is never consulted when `old` and `v` are the same object.  A raising
`__eq__` (`peq _ _ = none`) propagates out of `set` (modelled as `.error`). -/
def Signal.set (peq : Nat → Nat → Option Bool) (s : PySignal) (v : Nat) :
    Except Unit SetResult :=
  let old := s.value
  if old = v then .ok ⟨s, ∅, (old, v)⟩
  else
    match peq old v with
    | none => .error ()
    | some true => .ok ⟨s, ∅, (old, v)⟩
    | some false => .ok ⟨⟨v, s.subs⟩, s.subs, (old, v)⟩

/-- `Signal.subscribe` (lines 140-146): `self._subs.add(cb)`. -/
def Signal.subscribe (s : PySignal) (cb : Nat) : PySignal :=
  ⟨s.value, insert cb s.subs⟩

/-- The unsubscribe closure returned by `Signal.subscribe`:
`self._subs.discard(cb)`. -/
def Signal.unsubscribe (s : PySignal) (cb : Nat) : PySignal :=
  ⟨s.value, s.subs.erase cb⟩

/-! ## CSS scoping (sitewinder.py lines 371-392, `Component._scope_css`)

    for line in css_text.splitlines():
        stripped = line.strip()
        if not stripped or stripped.startswith("@"):
            scoped_lines.append(line); continue
        if "{" in line:
            before, after = line.split("{", 1)
            selectors = [s.strip() for s in before.split(",")]
            prefixed = ", ".join(f"{scope_selector} {s}" for s in selectors if s)
            scoped_lines.append(f"{prefixed} {{{after}")
        else:
            scoped_lines.append(line)
    return "\n".join(scoped_lines)

String plumbing is modelled on `List Char`.  `str.strip()` strips Python
whitespace; `str.splitlines()` is modelled for texts whose line terminator is
the newline character (the only terminator occurring in the stylesheets the
framework produces). -/

/-- Python `str.strip()` whitespace: space, tab, newline, carriage return,
vertical tab, form feed. -/
def pyIsSpace (c : Char) : Bool :=
  c = ' ' || c = '\t' || c = '\n' || c = '\r' || c = Char.ofNat 11 || c = Char.ofNat 12

/-- Python `str.strip()` on a character list. -/
def pyStripList (l : List Char) : List Char :=
  ((l.dropWhile pyIsSpace).reverse.dropWhile pyIsSpace).reverse

/-- Python `str.strip()`. -/
def pyStrip (s : String) : String :=
  ⟨pyStripList s.data⟩

/-- Python `line.split("{", 1)`: `some (before, after)` splits at the first
brace; `none` means the line has no brace (Python's `"{" in line` is false). -/
def splitFirstBrace : List Char → Option (List Char × List Char)
  | [] => none
  | c :: cs =>
    if c = '{' then some ([], cs)
    else
      match splitFirstBrace cs with
      | some (b, a) => some (c :: b, a)
      | none => none

/-- Python `str.split(sep)` for a one-character separator (keeps empty
pieces; `"".split(sep) = [""]`). -/
def splitOnChar (sep : Char) : List Char → List (List Char)
  | [] => [[]]
  | c :: cs =>
    if c = sep then [] :: splitOnChar sep cs
    else
      match splitOnChar sep cs with
      | h :: t => (c :: h) :: t
      | [] => [[c]]

/-- Python `str.splitlines()` for newline-terminated text: split on the
newline character, dropping the trailing empty piece that `splitOnChar`
produces when the text ends in a newline (or is empty). -/
def pySplitlines (s : String) : List String :=
  let parts := (splitOnChar '\n' s.data).map fun l => (⟨l⟩ : String)
  match parts.getLast? with
  | some last => if last = "" then parts.dropLast else parts
  | none => parts

/-- One line of `Component._scope_css` (the loop body, lines 378-391). -/
def scopeLine (scope_selector : String) (line : String) : String :=
  let stripped := pyStrip line
  if stripped = "" || stripped.data.head? = some '@' then line
  else
    match splitFirstBrace line.data with
    | some (before, after) =>
      let selectors := (splitOnChar ',' before).map pyStripList
      let prefixed := String.intercalate ", "
        ((selectors.filter fun s => s ≠ []).map
          fun s => scope_selector ++ " " ++ (⟨s⟩ : String))
      prefixed ++ " \x7b" ++ (⟨after⟩ : String)
    | none => line

/-- `Component._scope_css` (sitewinder.py lines 371-392). -/
def scope_css (css_text : String) (scope_selector : String) : String :=
  String.intercalate "\n" ((pySplitlines css_text).map (scopeLine scope_selector))

/-! ## Render scheduling (sitewinder.py lines 44-49, 290-311, 416-511)

Operational model of one mounted `Component` in a browser environment
(`HAS_JS = True`), at the granularity the scheduling claims need.

* The component's `template()` reads exactly the signals listed in `deps`
  (its dependency set as recorded by the `DependencyCollector`).
* Signal values are `Int`s indexed by signal id (`is` and `==` coincide).
* `_schedule_microtask` (lines 44-49) is `window.setTimeout(run, 0)`:
  the `run` closure is appended to an event-loop queue; `queue` counts
  the queued `run` callbacks of this component.
* `renders` counts completed `_render_and_mount` calls and `lastView` is
  the list of dependency values read by the most recent render.
-/

structure SchedState where
  vals : List Int
  subscribed : List Nat
  pending : Bool
  destroyed : Bool
  queue : Nat
  renders : Nat
  lastView : List Int
  deriving DecidableEq

/-- `Component._schedule_rerender` (lines 502-511) up to the `setTimeout`
call: return early when a render is already pending or the component is
destroyed, otherwise set the pending flag and queue the `run` closure. -/
def scheduleRerender (s : SchedState) : SchedState :=
  if s.pending || s.destroyed then s
  else { s with pending := true, queue := s.queue + 1 }

/-- `Component._render_and_mount(first_mount=False)` (lines 416-500) for a
component whose host was resolved at mount time: old signal subscriptions are
released and the dependencies collected from `template()` are re-subscribed
(lines 429-452), the subtree is rebuilt from the current signal values
(lines 474-476), and the lifecycle hook fires.  The function checks only
`_is_dom_node(self._host_js)` — destroy() clears neither `_host_js` nor
`_root_js`, so no branch of it consults `_destroyed`. -/
def renderAndMount (deps : List Nat) (s : SchedState) : SchedState :=
  { s with
    subscribed := deps
    lastView := deps.map fun i => s.vals.getD i 0
    renders := s.renders + 1 }

/-- `Signal.set` notification as seen by this component (lines 128-138
together with the `_on_sig_change` callback of lines 448-452): when the value
actually changes and the component's re-render callback is subscribed to
signal `i`, the callback runs `self._schedule_rerender()`. -/
def sigSet (s : SchedState) (i : Nat) (v : Int) : SchedState :=
  let old := s.vals.getD i 0
  if old = v then s
  else
    let s1 := { s with vals := s.vals.set i v }
    if i ∈ s.subscribed then scheduleRerender s1 else s1

/-- The event loop runs one queued `run` callback (lines 507-509):
`self._pending_render = False; self._render_and_mount(first_mount=False)`.
`run` does not re-check `self._destroyed`. -/
def runPending (deps : List Nat) (s : SchedState) : SchedState :=
  match s.queue with
  | 0 => s
  | q + 1 => renderAndMount deps { s with queue := q, pending := false }

/-- `Component.destroy` (lines 290-311): idempotent; detaches bindings,
unsubscribes all signals, removes the root from the host, marks the
component destroyed and runs `on_destroy`.  It does not reset
`_pending_render` and cannot remove an already queued `run` callback. -/
def destroy (s : SchedState) : SchedState :=
  if s.destroyed then s
  else { s with subscribed := [], destroyed := true }

/-- A sequence of synchronous `Signal.set` calls, all happening before the
event loop runs any queued callback (one event-loop turn). -/
def applySets (s : SchedState) : List (Nat × Int) → SchedState
  | [] => s
  | (i, v) :: rest => applySets (sigSet s i v) rest

/-! ## Router (sitewinder.py lines 628-692)

`Router` holds a route map (a Python dict from hash string to zero-argument
component factory), an optional `not_found` factory and the currently mounted
component `_current`.  `_on_hash_change` (lines 666-692):

    h = str(_window.location.hash or "#/")
    factory = self.routes.get(h)
    if factory is None and self.not_found_factory is not None:
        factory = self.not_found_factory
    if factory is None:
        if h.endswith("/") and (h[:-1] in self.routes):
            factory = self.routes[h[:-1]]
    if factory is None and "#/" in self.routes:
        factory = self.routes["#/"]
    if factory is None:
        if self._current: self._current.destroy(); self._current = None
        return
    if self._current: self._current.destroy(); self._current = None
    comp = factory(); comp.mount(self.outlet); self._current = comp

Factories are modelled by numeric ids; mounted component instances by
numeric instance ids supplied by the navigation step.  The observable
actions of a navigation are recorded as an event trace. -/

/-- Python `dict.get` on the route map (keys are unique in a dict). -/
def getRoute (routes : List (String × Nat)) (k : String) : Option Nat :=
  match routes with
  | [] => none
  | (k', f) :: rest => if k' = k then some f else getRoute rest k

/-- Python `h.endswith("/")`. -/
def endsWithSlash (h : String) : Bool :=
  h.data.getLast? = some '/'

/-- Python `h[:-1]`. -/
def dropLastChar (h : String) : String :=
  ⟨h.data.dropLast⟩

/-- The factory-selection chain of `Router._on_hash_change`
(lines 667-676), translated statement by statement. -/
def resolveFactory (routes : List (String × Nat)) (notFound : Option Nat)
    (h : String) : Option Nat :=
  let factory := getRoute routes h
  let factory :=
    match factory, notFound with
    | none, some nf => some nf
    | f, _ => f
  let factory :=
    match factory with
    | none =>
      if endsWithSlash h then
        match getRoute routes (dropLastChar h) with
        | some f => some f
        | none => none
      else none
    | some f => some f
  match factory with
  | none => getRoute routes "#/"
  | some f => some f

/-- Observable actions performed by router navigation. -/
inductive REvent where
  /-- `destroy()` removed the instance's DOM root from the outlet. -/
  | unmounted (inst : Nat)
  /-- `destroy()` ran the instance's `on_destroy` hook. -/
  | onDestroyRan (inst : Nat)
  /-- `factory()` ran: the new instance's constructor (including `on_init`). -/
  | constructed (inst : Nat)
  /-- `comp.mount(self.outlet)` completed for the new instance. -/
  | mounted (inst : Nat)
  deriving DecidableEq

/-- The trace of `Component.destroy` on a live routed component
(lines 290-311): the DOM root is removed, then `on_destroy` runs. -/
def destroyEvents (inst : Nat) : List REvent :=
  [.unmounted inst, .onDestroyRan inst]

structure RouterSt where
  routes : List (String × Nat)
  notFound : Option Nat
  current : Option Nat
  deriving DecidableEq

/-- `Router._on_hash_change` (lines 666-692).  `hash` is
`window.location.hash` (defaulted to `"#/"` when empty, line 667); `newInst`
is the instance id the factory call would create.  Returns the new router
state and the event trace of the navigation. -/
def onHashChange (st : RouterSt) (hash : String) (newInst : Nat) :
    RouterSt × List REvent :=
  let h := if hash = "" then "#/" else hash
  match resolveFactory st.routes st.notFound h with
  | none =>
    match st.current with
    | some c => ({ st with current := none }, destroyEvents c)
    | none => (st, [])
  | some _ =>
    match st.current with
    | some c =>
      ({ st with current := some newInst },
        destroyEvents c ++ [.constructed newInst, .mounted newInst])
    | none =>
      ({ st with current := some newInst },
        [.constructed newInst, .mounted newInst])

/-- A whole sequence of navigation events; each list entry is the observed
hash together with the instance id a factory call would mint. -/
def runNavs (st : RouterSt) : List (String × Nat) → RouterSt × List REvent
  | [] => (st, [])
  | (h, n) :: rest =>
    let step := onHashChange st h n
    let tail := runNavs step.1 rest
    (tail.1, step.2 ++ tail.2)

/-- The set of mounted routed components, updated by one observable action:
`unmounted` removes an instance from the page, `mounted` adds one. -/
def applyEvent (m : Finset Nat) : REvent → Finset Nat
  | .unmounted i => m.erase i
  | .mounted i => insert i m
  | _ => m

/-- The set of mounted routed components after a trace of actions. -/
def applyEvents (m : Finset Nat) (evs : List REvent) : Finset Nat :=
  evs.foldl applyEvent m

/-- The set of components the router currently has mounted. -/
def mountedSet (st : RouterSt) : Finset Nat :=
  match st.current with
  | some c => {c}
  | none => ∅

/-! ## The render-and-mount pipeline (sitewinder.py lines 416-500)

Statement-level trace of `Component._render_and_mount` for a component whose
host is resolved, at the granularity claim C7 needs.  The user-supplied
`template()` either returns markup or raises; the `try/except` of lines
437-445 turns a raise into a logged message plus the fallback node
`Fragment(f"SiteWinder template error: {e}")`, and every statement after the
`with DependencyCollector()` block runs in both cases. -/

inductive Hook where
  | onMount
  | onUpdate
  deriving DecidableEq

/-- One statement of `_render_and_mount`, in source order. -/
inductive RStep where
  /-- lines 423-426: `_cleanup_bindings` and clearing the binding lists. -/
  | cleanupBindings
  /-- lines 429-434: release the previous render's signal subscriptions. -/
  | unsubscribeSignals
  /-- line 444: `_console.error(f"template() error: {e}")`. -/
  | templateError (msg : String)
  /-- lines 448-452: subscribe `_on_sig_change` to every collected signal. -/
  | subscribeDeps
  /-- line 471: `_mount_styles_if_any`. -/
  | mountStyles
  /-- lines 474-476: wipe the container and materialize the node tree. -/
  | materialize (content : String)
  /-- line 479: `_apply_event_bindings`. -/
  | applyEventBindings
  /-- line 482: `_apply_value_bindings`. -/
  | applyValueBindings
  /-- line 485: `_mount_portal_children`. -/
  | mountPortals
  /-- lines 488-500: `on_mount` on the first render, `on_update` after. -/
  | lifecycleHook (h : Hook)
  deriving DecidableEq

/-- `Component._render_and_mount` (lines 416-500) as a statement trace, for
a mounted component (`first_mount=False` path of the container logic;
`mountedBefore` is `self._mounted`).  `tmpl` is the outcome of the
user-supplied `template()` call: `.ok markup` or `.error message`. -/
def renderAndMountSteps (tmpl : Except String String) (mountedBefore : Bool) :
    List RStep :=
  [RStep.cleanupBindings, RStep.unsubscribeSignals] ++
  (match tmpl with
   | .ok _ => []
   | .error e => [RStep.templateError ("template() error: " ++ e)]) ++
  [RStep.subscribeDeps, RStep.mountStyles,
   RStep.materialize
     (match tmpl with
      | .ok t => t
      | .error e => "SiteWinder template error: " ++ e),
   RStep.applyEventBindings, RStep.applyValueBindings, RStep.mountPortals,
   RStep.lifecycleHook (if mountedBefore then Hook.onUpdate else Hook.onMount)]

/-! ## Element marker ids (sitewinder.py lines 170-172, 314-345, 363-369)

`_event_id_iter = (f"swe-{i}" for i in itertools.count(1))` is a global
generator; `Component._ensure_elem_marker`:

    data_attr = element.attrs.get("data-sw-id")
    if data_attr:
        return data_attr
    new_id = next(_event_id_iter)
    element.set_attr(**{"data-sw-id": new_id})
    return new_id

Both `on()` (line 318) and `bind_value()` (line 333) obtain the element's
marker id through this function.  A pyhtml5 `Element` keeps its attributes
in an insertion-ordered dict of strings; `set_attr` with the literal key
`"data-sw-id"` stores the value unchanged (`_normalize_attrs` leaves a
hyphenated key and a string value as they are). -/

structure PyElement where
  attrs : List (String × String)
  deriving DecidableEq

/-- Python `dict.get`. -/
def dictGet (d : List (String × String)) (k : String) : Option String :=
  match d with
  | [] => none
  | (k', v) :: rest => if k' = k then some v else dictGet rest k

/-- Python `dict.update` with a single key: overwrite in place, else append. -/
def dictSet (d : List (String × String)) (k v : String) : List (String × String) :=
  match d with
  | [] => [(k, v)]
  | (k', v') :: rest =>
    if k' = k then (k, v) :: rest else (k', v') :: dictSet rest k v

/-- The id yielded by the `next(_event_id_iter)` call when the generator's
counter stands at `c` (the counter starts at 1). -/
def eventId (c : Nat) : String :=
  "swe-" ++ Nat.repr c

/-- `Component._ensure_elem_marker` (lines 363-369) together with the global
id generator: returns the marker id, the (possibly updated) element, and the
new generator counter.  Python's `if data_attr:` is string truthiness, so an
empty attribute value does not count as a marker. -/
def ensureElemMarker (el : PyElement) (c : Nat) : String × PyElement × Nat :=
  match dictGet el.attrs "data-sw-id" with
  | some s =>
    if s = "" then
      (eventId c, ⟨dictSet el.attrs "data-sw-id" (eventId c)⟩, c + 1)
    else (s, el, c)
  | none =>
    (eventId c, ⟨dictSet el.attrs "data-sw-id" (eventId c)⟩, c + 1)

/-! ## Theorems -/

/-- C9: for every Signal, calling `set(v)` where `v` is the identical object
to the current stored value is a no-op with no subscriber calls, regardless
of what the equality comparison `peq` would report — including an equality
that reports unequal or would raise — because the change gate
`old is v or old == v` short-circuits on identity. -/
theorem signal_set_identity_noop (peq : Nat → Nat → Option Bool) (s : PySignal) :
    Signal.set peq s s.value = .ok ⟨s, ∅, (s.value, s.value)⟩ := by
  simp [Signal.set]

/-- C2 counterexample: the claim "set(v) with v unequal to the current value
(under `==`) stores v and invokes every currently registered subscriber" is
false as stated.  Take a value whose `__eq__` reports unequal even against
itself (`peq` constantly `some false`, as a Python object with a
user-defined `__eq__` can do) and pass the stored object itself to `set`:
`==` says the values differ, a subscriber is registered, yet the identity
half of the gate `old is v or old == v` makes the call a no-op. -/
theorem signal_set_equality_only_gating_false :
    ¬ (∀ (peq : Nat → Nat → Option Bool) (s : PySignal) (v : Nat),
        peq s.value v = some false →
        Signal.set peq s v = .ok ⟨⟨v, s.subs⟩, s.subs, (s.value, v)⟩) := by
  intro hclaim
  have h := hclaim (fun _ _ => some false) ⟨0, {5}⟩ 0 rfl
  have h' : Signal.set (fun _ _ => some false) ⟨0, {5}⟩ 0
      = .ok ⟨⟨0, {5}⟩, ∅, (0, 0)⟩ := rfl
  rw [h'] at h
  have : (∅ : Finset Nat) = {5} := congrArg SetResult.calls (Except.ok.inj h)
  exact absurd this (by decide)

/-- C2 (amended): `set(v)` with `v` equal to the current value (whether by
identity or by `==`) invokes zero subscribers and leaves the stored value
unchanged; `set(v)` with `v` unequal to the current value under `==` *and
not the identical object* stores `v` and synchronously invokes every
currently registered subscriber exactly once with the pair `(old, v)`. -/
theorem signal_set_equality_gating (peq : Nat → Nat → Option Bool)
    (s : PySignal) (v : Nat) :
    (peq s.value v = some true →
      Signal.set peq s v = .ok ⟨s, ∅, (s.value, v)⟩) ∧
    (s.value = v →
      Signal.set peq s v = .ok ⟨s, ∅, (s.value, v)⟩) ∧
    (peq s.value v = some false → s.value ≠ v →
      Signal.set peq s v = .ok ⟨⟨v, s.subs⟩, s.subs, (s.value, v)⟩) := by
  refine ⟨fun h => ?_, fun h => ?_, fun h hne => ?_⟩
  · by_cases hv : s.value = v
    · simp [Signal.set, hv]
    · simp [Signal.set, hv, h]
  · simp [Signal.set, h]
  · simp [Signal.set, hne, h]

/-- C2 witness: a concrete equal-valued `set` is a silent no-op and a
concrete changing `set` notifies the one registered subscriber with
`(old, new)`. -/
theorem signal_set_equality_gating_witness :
    Signal.set (fun a b => some (decide (a = b))) ⟨0, {5}⟩ 0
      = .ok ⟨⟨0, {5}⟩, ∅, (0, 0)⟩ ∧
    Signal.set (fun a b => some (decide (a = b))) ⟨0, {5}⟩ 1
      = .ok ⟨⟨1, {5}⟩, {5}, (0, 1)⟩ :=
  ⟨(signal_set_equality_gating (fun a b => some (decide (a = b))) ⟨0, {5}⟩ 0).1
      (by decide),
   (signal_set_equality_gating (fun a b => some (decide (a = b))) ⟨0, {5}⟩ 1).2.2
      (by decide) (by decide)⟩

/-- C8: `subscribe(cb)` registers `cb`; the returned unsubscribe closure
removes exactly that registration (and nothing else); subscribing twice with
the same callback reference leaves a single registration; and
subscribe-unsubscribe-subscribe is the same as a single subscribe, so a
re-subscribed callback receives notifications again. -/
theorem signal_subscribe_relations (s : PySignal) (cb : Nat) :
    cb ∈ (Signal.subscribe s cb).subs ∧
    cb ∉ (Signal.unsubscribe (Signal.subscribe s cb) cb).subs ∧
    (∀ d, d ≠ cb →
      (d ∈ (Signal.unsubscribe (Signal.subscribe s cb) cb).subs ↔ d ∈ s.subs)) ∧
    Signal.subscribe (Signal.subscribe s cb) cb = Signal.subscribe s cb ∧
    Signal.subscribe (Signal.unsubscribe (Signal.subscribe s cb) cb) cb
      = Signal.subscribe s cb ∧
    (∀ peq v, peq s.value v = some false → s.value ≠ v →
      Signal.set peq
          (Signal.subscribe (Signal.unsubscribe (Signal.subscribe s cb) cb) cb) v
        = .ok ⟨⟨v, insert cb s.subs⟩, insert cb s.subs, (s.value, v)⟩ ∧
      cb ∈ (insert cb s.subs : Finset Nat)) := by
  refine ⟨?_, ?_, fun d hd => ?_, ?_, ?_, fun peq v hpeq hne => ⟨?_, ?_⟩⟩
  · simp [Signal.subscribe]
  · simp [Signal.unsubscribe]
  · simp [Signal.unsubscribe, Signal.subscribe, Finset.mem_erase, hd]
  · simp [Signal.subscribe, Finset.insert_idem]
  · have he : insert cb (s.subs.erase cb) = insert cb s.subs := by
      ext x
      simp only [Finset.mem_insert, Finset.mem_erase]
      constructor
      · rintro (rfl | ⟨-, hx⟩)
        · exact Or.inl rfl
        · exact Or.inr hx
      · rintro (rfl | hx)
        · exact Or.inl rfl
        · by_cases hxc : x = cb
          · exact Or.inl hxc
          · exact Or.inr ⟨hxc, hx⟩
    simp [Signal.subscribe, Signal.unsubscribe, he]
  · have he : insert cb (s.subs.erase cb) = insert cb s.subs := by
      ext x
      simp only [Finset.mem_insert, Finset.mem_erase]
      constructor
      · rintro (rfl | ⟨-, hx⟩)
        · exact Or.inl rfl
        · exact Or.inr hx
      · rintro (rfl | hx)
        · exact Or.inl rfl
        · by_cases hxc : x = cb
          · exact Or.inl hxc
          · exact Or.inr ⟨hxc, hx⟩
    simp [Signal.subscribe, Signal.unsubscribe, Signal.set, hne, hpeq, he]
  · exact Finset.mem_insert_self cb s.subs

/-- C8 witness: the subscribe/unsubscribe relations evaluated on a signal
holding value 0 with one prior subscriber 3 and the callback 7. -/
theorem signal_subscribe_relations_witness :
    (3 : Nat) ≠ 7 ∧
    ((fun _ _ : Nat => (some false : Option Bool)) 0 1 = some false) ∧
    (0 : Nat) ≠ 1 ∧
    7 ∈ (Signal.subscribe ⟨0, {3}⟩ 7).subs ∧
    (3 ∈ (Signal.unsubscribe (Signal.subscribe ⟨0, {3}⟩ 7) 7).subs ↔
      3 ∈ (({3} : Finset Nat))) ∧
    Signal.set (fun _ _ => some false)
        (Signal.subscribe (Signal.unsubscribe (Signal.subscribe ⟨0, {3}⟩ 7) 7) 7) 1
      = .ok ⟨⟨1, insert 7 {3}⟩, insert 7 {3}, (0, 1)⟩ := by
  have h := signal_subscribe_relations ⟨0, {3}⟩ 7
  exact ⟨by decide, rfl, by decide, h.1, h.2.2.1 3 (by decide),
    (h.2.2.2.2.2 (fun _ _ => some false) 1 rfl (by decide)).1⟩

theorem splitFirstBrace_of_not_mem {l : List Char} (h : '{' ∉ l) :
    splitFirstBrace l = none := by
  induction l with
  | nil => rfl
  | cons c cs ih =>
    have hc : ¬ c = '{' := fun hc => h (hc ▸ List.mem_cons_self c cs)
    have hcs : '{' ∉ cs := fun hm => h (List.mem_cons_of_mem c hm)
    simp [splitFirstBrace, hc, ih hcs]

theorem splitFirstBrace_append {before : List Char} (after : List Char)
    (h : '{' ∉ before) :
    splitFirstBrace (before ++ '{' :: after) = some (before, after) := by
  induction before with
  | nil => simp [splitFirstBrace]
  | cons c cs ih =>
    have hc : ¬ c = '{' := fun hc => h (hc ▸ List.mem_cons_self c cs)
    have hcs : '{' ∉ cs := fun hm => h (List.mem_cons_of_mem c hm)
    simp [splitFirstBrace, hc, ih hcs]

/-- C3: the CSS scoping function passes empty-after-strip lines and at-rule
lines through unchanged, leaves lines without a block opener unchanged, and
for a line containing an opening brace splits at the first brace, splits the
part before it on commas, prefixes each non-empty stripped selector with the
scope selector and a space, and rejoins the parts; in particular scoping
`".x { color: red; }"` for instance scope `data-sw-cid="7"` yields the
selector `[data-sw-cid="7"] .x`. -/
theorem scope_css_policy (scope line : String) :
    (pyStrip line = "" → scopeLine scope line = line) ∧
    ((pyStrip line).data.head? = some '@' → scopeLine scope line = line) ∧
    ('{' ∉ line.data → scopeLine scope line = line) ∧
    (∀ before after, line.data = before ++ '{' :: after → '{' ∉ before →
      pyStrip line ≠ "" → (pyStrip line).data.head? ≠ some '@' →
      scopeLine scope line = String.intercalate ", "
          ((((splitOnChar ',' before).map pyStripList).filter fun s => s ≠ []).map
            fun s => scope ++ " " ++ (⟨s⟩ : String))
        ++ " \x7b" ++ (⟨after⟩ : String)) ∧
    (∀ css, scope_css css scope
      = String.intercalate "\n" ((pySplitlines css).map (scopeLine scope))) ∧
    scope_css ".x { color: red; }" "[data-sw-cid=\"7\"]"
      = "[data-sw-cid=\"7\"] .x { color: red; }" := by
  refine ⟨fun h => ?_, fun h => ?_, fun h => ?_,
    fun before after heq hnb h1 h2 => ?_, fun css => rfl, by decide⟩
  · simp [scopeLine, h]
  · simp [scopeLine, h]
  · rw [scopeLine]
    split
    · rfl
    · rw [splitFirstBrace_of_not_mem h]
  · rw [scopeLine, if_neg (by simp [h1, h2]), heq, splitFirstBrace_append after hnb]

/-- C3 witness: the four line classes evaluated on concrete lines, and the
claim's concrete scoping example. -/
theorem scope_css_policy_witness :
    scopeLine "[s]" "   " = "   " ∧
    scopeLine "[s]" " @media (min-width: 1px) \x7b" = " @media (min-width: 1px) \x7b" ∧
    scopeLine "[s]" "  color: red;" = "  color: red;" ∧
    scopeLine "[s]" ".x, .y { color: red; }" = "[s] .x, [s] .y { color: red; }" ∧
    scope_css ".x { color: red; }" "[data-sw-cid=\"7\"]"
      = "[data-sw-cid=\"7\"] .x { color: red; }" := by
  refine ⟨(scope_css_policy "[s]" "   ").1 (by decide),
    (scope_css_policy "[s]" " @media (min-width: 1px) \x7b").2.1 (by decide),
    (scope_css_policy "[s]" "  color: red;").2.2.1 (by decide),
    ((scope_css_policy "[s]" ".x, .y { color: red; }").2.2.2.1
        (".x, .y ".data) (" color: red; \x7d".data)
        (by decide) (by decide) (by decide) (by decide)).trans (by decide),
    (scope_css_policy "x" "y").2.2.2.2.2⟩

/-- C1 (evaluation at the failing input): `Component.destroy` does *not*
cancel a pending re-render.  Start from a mounted component depending on
signal 0 (one completed render); a tracked-signal change schedules a
re-render (`s1.pending = true`, one queued `run` callback); `destroy()` runs
before the event-loop turn completes; when the stale queued callback then
fires, the destroyed component re-renders (`renders` goes from 1 to 2) and
re-attaches its signal subscriptions (`subscribed = [0]` again), because
neither `run` nor `_render_and_mount` re-checks `_destroyed` and `destroy`
cannot remove the queued `setTimeout` callback. -/
theorem destroy_does_not_cancel_pending_render :
    (sigSet ⟨[0], [0], false, false, 0, 1, [0]⟩ 0 5).pending = true ∧
    (sigSet ⟨[0], [0], false, false, 0, 1, [0]⟩ 0 5).queue = 1 ∧
    (destroy (sigSet ⟨[0], [0], false, false, 0, 1, [0]⟩ 0 5)).destroyed = true ∧
    (destroy (sigSet ⟨[0], [0], false, false, 0, 1, [0]⟩ 0 5)).renders = 1 ∧
    (destroy (sigSet ⟨[0], [0], false, false, 0, 1, [0]⟩ 0 5)).subscribed = [] ∧
    runPending [0] (destroy (sigSet ⟨[0], [0], false, false, 0, 1, [0]⟩ 0 5))
      = ⟨[5], [0], false, true, 0, 2, [5]⟩ := by
  decide

theorem sigSet_preserves (s : SchedState) (i : Nat) (v : Int) :
    (sigSet s i v).subscribed = s.subscribed ∧
    (sigSet s i v).renders = s.renders ∧
    (sigSet s i v).destroyed = s.destroyed ∧
    (s.queue = (if s.pending then 1 else 0) →
      (sigSet s i v).queue = if (sigSet s i v).pending then 1 else 0) := by
  by_cases h1 : s.vals[i]?.getD 0 = v
  · simp [sigSet, List.getD, h1]
  · by_cases h2 : i ∈ s.subscribed
    · by_cases h3 : (s.pending || s.destroyed) = true
      · simp [sigSet, List.getD, scheduleRerender, h1, h2, h3]
      · have hp : s.pending = false := by
          cases hsp : s.pending
          · rfl
          · exact absurd (by simp [hsp]) h3
        have hd : s.destroyed = false := by
          cases hsd : s.destroyed
          · rfl
          · exact absurd (by simp [hsd]) h3
        simp [sigSet, List.getD, scheduleRerender, h1, h2, h3, hp, hd]
    · simp [sigSet, List.getD, h1, h2]

theorem applySets_preserves (ops : List (Nat × Int)) (s : SchedState) :
    (applySets s ops).subscribed = s.subscribed ∧
    (applySets s ops).renders = s.renders ∧
    (applySets s ops).destroyed = s.destroyed ∧
    (s.queue = (if s.pending then 1 else 0) →
      (applySets s ops).queue = if (applySets s ops).pending then 1 else 0) := by
  induction ops generalizing s with
  | nil => exact ⟨rfl, rfl, rfl, fun h => h⟩
  | cons op rest ih =>
    obtain ⟨i, v⟩ := op
    have h1 := sigSet_preserves s i v
    have h2 := ih (sigSet s i v)
    exact ⟨h2.1.trans h1.1, h2.2.1.trans h1.2.1, h2.2.2.1.trans h1.2.2.1,
      fun h => h2.2.2.2 (h1.2.2.2 h)⟩

/-- C6: any number of `Signal.set` notifications arriving in one event-loop
turn — on one signal or several — leave at most one queued re-render
callback (the pending-render flag coalesces them), the synchronous `set`
calls themselves perform no render, and when the single queued callback runs
it performs exactly one re-render whose view reflects the final values of
all the dependency signals. -/
theorem rerender_coalescing (s : SchedState) (ops : List (Nat × Int))
    (deps : List Nat) (hq : s.queue = if s.pending then 1 else 0) :
    ((applySets s ops).queue = if (applySets s ops).pending then 1 else 0) ∧
    (applySets s ops).queue ≤ 1 ∧
    (applySets s ops).renders = s.renders ∧
    (runPending deps (applySets s ops)).renders ≤ s.renders + 1 ∧
    ((applySets s ops).queue = 1 →
      (runPending deps (applySets s ops)).renders = s.renders + 1 ∧
      (runPending deps (applySets s ops)).queue = 0 ∧
      (runPending deps (applySets s ops)).lastView
        = deps.map fun i => (applySets s ops).vals.getD i 0) := by
  obtain ⟨hsub, hren, hdes, hqi⟩ := applySets_preserves ops s
  have hq' := hqi hq
  have hle : (applySets s ops).queue ≤ 1 := by
    rw [hq']; split <;> simp
  refine ⟨hq', hle, hren, ?_, fun h1 => ?_⟩
  · rcases hqe : (applySets s ops).queue with _ | q
    · simp [runPending, hqe, hren]
    · simp [runPending, hqe, renderAndMount, hren]
  · simp [runPending, h1, renderAndMount, hren]

/-- C6 witness: the spec's scenario — `A.set(1)`, `A.set(2)`, `B.set(3)`
synchronously in one turn on a mounted component depending on `A` and `B` —
queues exactly one re-render; running it yields exactly one additional
render whose view `[2, 3]` reflects the final values of both signals. -/
theorem rerender_coalescing_witness :
    (applySets ⟨[0, 0], [0, 1], false, false, 0, 1, [0, 0]⟩
        [(0, 1), (0, 2), (1, 3)]).queue = 1 ∧
    (runPending [0, 1] (applySets ⟨[0, 0], [0, 1], false, false, 0, 1, [0, 0]⟩
        [(0, 1), (0, 2), (1, 3)])).renders = 2 ∧
    (runPending [0, 1] (applySets ⟨[0, 0], [0, 1], false, false, 0, 1, [0, 0]⟩
        [(0, 1), (0, 2), (1, 3)])).queue = 0 ∧
    (runPending [0, 1] (applySets ⟨[0, 0], [0, 1], false, false, 0, 1, [0, 0]⟩
        [(0, 1), (0, 2), (1, 3)])).lastView = [2, 3] := by
  have h := rerender_coalescing ⟨[0, 0], [0, 1], false, false, 0, 1, [0, 0]⟩
    [(0, 1), (0, 2), (1, 3)] [0, 1] (by decide)
  have hq : (applySets ⟨[0, 0], [0, 1], false, false, 0, 1, [0, 0]⟩
      [(0, 1), (0, 2), (1, 3)]).queue = 1 := by decide
  exact ⟨hq, (h.2.2.2.2 hq).1, (h.2.2.2.2 hq).2.1,
    ((h.2.2.2.2 hq).2.2).trans (by decide)⟩

/-- C4: `Router._on_hash_change` selects a factory in exactly the claimed
order — exact match first, otherwise the not-found factory if present,
otherwise the trailing-separator retry, otherwise the root route — and when
nothing resolves it destroys the currently mounted component and mounts
nothing. -/
theorem router_resolution_order (routes : List (String × Nat))
    (notFound : Option Nat) (h : String) (st : RouterSt) (hash : String)
    (n : Nat) :
    (∀ f, getRoute routes h = some f →
      resolveFactory routes notFound h = some f) ∧
    (getRoute routes h = none → ∀ nf, notFound = some nf →
      resolveFactory routes notFound h = some nf) ∧
    (getRoute routes h = none → notFound = none → endsWithSlash h = true →
      ∀ f, getRoute routes (dropLastChar h) = some f →
      resolveFactory routes notFound h = some f) ∧
    (getRoute routes h = none → notFound = none →
      (endsWithSlash h = false ∨ getRoute routes (dropLastChar h) = none) →
      resolveFactory routes notFound h = getRoute routes "#/") ∧
    (resolveFactory st.routes st.notFound (if hash = "" then "#/" else hash)
        = none →
      (onHashChange st hash n).1.current = none ∧
      (∀ c, st.current = some c →
        (onHashChange st hash n).2 = destroyEvents c) ∧
      (st.current = none → (onHashChange st hash n).2 = [])) := by
  refine ⟨fun f hf => ?_, fun h0 nf hnf => ?_, fun h0 hnf hs f hf => ?_,
    fun h0 hnf hcase => ?_, fun hres => ?_⟩
  · simp [resolveFactory, hf]
  · simp [resolveFactory, h0, hnf]
  · simp [resolveFactory, h0, hnf, hs, hf]
  · rcases hcase with hs | hd
    · simp [resolveFactory, h0, hnf, hs]
    · by_cases hs : endsWithSlash h = true <;>
        simp [resolveFactory, h0, hnf, hs, hd]
  · rcases hcur : st.current with _ | c <;>
      simp [onHashChange, hres, hcur, destroyEvents]

/-- C4 witness: the resolution chain evaluated on the route map
`{"#/": 10, "#/a": 11}` — exact match, not-found fallback, trailing-slash
retry, root fallback — and a no-resolution navigation that destroys the
mounted component and mounts nothing. -/
theorem router_resolution_order_witness :
    resolveFactory [("#/", 10), ("#/a", 11)] none "#/a" = some 11 ∧
    resolveFactory [("#/", 10), ("#/a", 11)] (some 99) "#/b" = some 99 ∧
    resolveFactory [("#/", 10), ("#/a", 11)] none "#/a/" = some 11 ∧
    resolveFactory [("#/", 10), ("#/a", 11)] none "#/b" = some 10 ∧
    (onHashChange ⟨[], none, some 3⟩ "#/x" 7).1.current = none ∧
    (onHashChange ⟨[], none, some 3⟩ "#/x" 7).2 = destroyEvents 3 := by
  have ha := router_resolution_order [("#/", 10), ("#/a", 11)] none "#/a"
    ⟨[], none, some 3⟩ "#/x" 7
  have hb := router_resolution_order [("#/", 10), ("#/a", 11)] (some 99) "#/b"
    ⟨[], none, some 3⟩ "#/x" 7
  have hc := router_resolution_order [("#/", 10), ("#/a", 11)] none "#/a/"
    ⟨[], none, some 3⟩ "#/x" 7
  have hd := router_resolution_order [("#/", 10), ("#/a", 11)] none "#/b"
    ⟨[], none, some 3⟩ "#/x" 7
  have he := router_resolution_order [] none "x" ⟨[], none, some 3⟩ "#/x" 7
  exact ⟨ha.1 11 (by decide), hb.2.1 (by decide) 99 rfl,
    hc.2.2.1 (by decide) rfl (by decide) 11 (by decide),
    (hd.2.2.2.1 (by decide) rfl (Or.inl (by decide))).trans (by decide),
    (he.2.2.2.2 (by decide)).1, (he.2.2.2.2 (by decide)).2.1 3 rfl⟩

theorem applyEvents_append (m : Finset Nat) (l1 l2 : List REvent) :
    applyEvents m (l1 ++ l2) = applyEvents (applyEvents m l1) l2 :=
  List.foldl_append applyEvent m l1 l2

theorem mountedSet_card_le (st : RouterSt) : (mountedSet st).card ≤ 1 := by
  rcases hcur : st.current with _ | c <;> simp [mountedSet, hcur]

theorem onHashChange_trace (st : RouterSt) (hash : String) (n : Nat) :
    (∀ k,
      (applyEvents (mountedSet st) ((onHashChange st hash n).2.take k)).card
        ≤ 1) ∧
    applyEvents (mountedSet st) (onHashChange st hash n).2
      = mountedSet (onHashChange st hash n).1 := by
  rcases hfac : resolveFactory st.routes st.notFound
      (if hash = "" then "#/" else hash) with _ | f <;>
    rcases hcur : st.current with _ | c
  · constructor
    · intro k
      rcases k with _ | k <;>
        simp [onHashChange, hfac, hcur, mountedSet, applyEvents]
    · simp [onHashChange, hfac, hcur, mountedSet, applyEvents]
  · constructor
    · intro k
      rcases k with _ | _ | k <;>
        simp [onHashChange, hfac, hcur, mountedSet, destroyEvents,
          applyEvents, applyEvent]
    · simp [onHashChange, hfac, hcur, mountedSet, destroyEvents,
        applyEvents, applyEvent]
  · constructor
    · intro k
      rcases k with _ | _ | k <;>
        simp [onHashChange, hfac, hcur, mountedSet, applyEvents, applyEvent]
    · simp [onHashChange, hfac, hcur, mountedSet, applyEvents, applyEvent]
  · constructor
    · intro k
      rcases k with _ | _ | _ | _ | k <;>
        simp [onHashChange, hfac, hcur, mountedSet, destroyEvents,
          applyEvents, applyEvent]
    · simp [onHashChange, hfac, hcur, mountedSet, destroyEvents,
        applyEvents, applyEvent]

/-- C5: for every router state and every sequence of navigations, at most
one routed component is mounted at every observable instant of the emitted
action trace, the trace's final mounted set is exactly the router's current
component, and on each navigation that resolves to a factory while a
component is mounted, the old component is unmounted and its `on_destroy`
has run strictly before the new component's constructor runs and the new
component is mounted. -/
theorem router_exclusivity (st : RouterSt) (navs : List (String × Nat)) :
    (∀ k,
      (applyEvents (mountedSet st) ((runNavs st navs).2.take k)).card ≤ 1) ∧
    applyEvents (mountedSet st) (runNavs st navs).2
      = mountedSet (runNavs st navs).1 ∧
    (∀ hash n c, st.current = some c →
      resolveFactory st.routes st.notFound (if hash = "" then "#/" else hash)
        ≠ none →
      (onHashChange st hash n).2
        = [.unmounted c, .onDestroyRan c, .constructed n, .mounted n]) := by
  refine ⟨?_, ?_, fun hash n c hcur hres => ?_⟩
  · induction navs generalizing st with
    | nil =>
      intro k
      simpa [runNavs, applyEvents] using mountedSet_card_le st
    | cons nav rest ih =>
      obtain ⟨hsh, n⟩ := nav
      intro k
      have hstep := onHashChange_trace st hsh n
      simp only [runNavs]
      rw [List.take_append_eq_append_take, applyEvents_append]
      by_cases hk : k ≤ (onHashChange st hsh n).2.length
      · have hz : k - (onHashChange st hsh n).2.length = 0 := by omega
        rw [hz]
        simpa [applyEvents] using hstep.1 k
      · have hall : (onHashChange st hsh n).2.take k
            = (onHashChange st hsh n).2 :=
          List.take_of_length_le (by omega)
        rw [hall, hstep.2]
        exact ih (onHashChange st hsh n).1 (k - (onHashChange st hsh n).2.length)
  · induction navs generalizing st with
    | nil => simp [runNavs, applyEvents, mountedSet]
    | cons nav rest ih =>
      obtain ⟨hsh, n⟩ := nav
      have hstep := onHashChange_trace st hsh n
      simp only [runNavs]
      rw [applyEvents_append, hstep.2]
      exact ih (onHashChange st hsh n).1
  · rcases hfac : resolveFactory st.routes st.notFound
        (if hash = "" then "#/" else hash) with _ | f
    · exact absurd hfac hres
    · simp [onHashChange, hfac, hcur, destroyEvents]

/-- C5 witness: mount `"#/a"` then navigate to `"#/b"`: at most one
component is mounted at every prefix of the trace, and the single
navigation's trace unmounts and destroys the old instance before the new
instance's constructor and mount. -/
theorem router_exclusivity_witness :
    (applyEvents (mountedSet ⟨[("#/a", 1), ("#/b", 2)], none, some 3⟩)
      ((runNavs ⟨[("#/a", 1), ("#/b", 2)], none, some 3⟩ [("#/b", 4)]).2.take 2)).card
        ≤ 1 ∧
    (⟨[("#/a", 1), ("#/b", 2)], none, some 3⟩ : RouterSt).current = some 3 ∧
    resolveFactory [("#/a", 1), ("#/b", 2)] none "#/b" ≠ none ∧
    (onHashChange ⟨[("#/a", 1), ("#/b", 2)], none, some 3⟩ "#/b" 4).2
      = [.unmounted 3, .onDestroyRan 3, .constructed 4, .mounted 4] := by
  have h := router_exclusivity ⟨[("#/a", 1), ("#/b", 2)], none, some 3⟩
    [("#/b", 4)]
  exact ⟨h.1 2, rfl, by decide, h.2.2 "#/b" 4 3 rfl (by decide)⟩

/-- C7: a `template()` that raises during a render pass does not propagate
the error to the caller of the render: it is logged, a fallback
error-display node is materialized in place of the template's output, and
every remaining step of the render-and-mount procedure — dependency
subscription, style mounting, DOM materialization, event and value binding
attachment, portal mounting and the lifecycle hook — still runs, exactly as
in a successful render of the fallback content. -/
theorem template_error_contained (e : String) (mountedBefore : Bool) :
    RStep.templateError ("template() error: " ++ e)
        ∈ renderAndMountSteps (.error e) mountedBefore ∧
    RStep.materialize ("SiteWinder template error: " ++ e)
        ∈ renderAndMountSteps (.error e) mountedBefore ∧
    RStep.subscribeDeps ∈ renderAndMountSteps (.error e) mountedBefore ∧
    RStep.mountStyles ∈ renderAndMountSteps (.error e) mountedBefore ∧
    RStep.applyEventBindings ∈ renderAndMountSteps (.error e) mountedBefore ∧
    RStep.applyValueBindings ∈ renderAndMountSteps (.error e) mountedBefore ∧
    RStep.mountPortals ∈ renderAndMountSteps (.error e) mountedBefore ∧
    RStep.lifecycleHook (if mountedBefore then Hook.onUpdate else Hook.onMount)
        ∈ renderAndMountSteps (.error e) mountedBefore ∧
    renderAndMountSteps (.error e) mountedBefore
      = [RStep.cleanupBindings, RStep.unsubscribeSignals,
          RStep.templateError ("template() error: " ++ e)]
        ++ (renderAndMountSteps (.ok ("SiteWinder template error: " ++ e))
              mountedBefore).drop 2 := by
  refine ⟨?_, ?_, ?_, ?_, ?_, ?_, ?_, ?_, ?_⟩ <;>
    simp [renderAndMountSteps]

/-! Injectivity of the decimal numeral string `Nat.repr`, needed to show
that fresh marker ids minted at distinct generator positions differ. -/

theorem toDigitsCore_append (f : Nat) :
    ∀ (n : Nat) (ds : List Char),
      Nat.toDigitsCore 10 f n ds = Nat.toDigitsCore 10 f n [] ++ ds := by
  induction f with
  | zero => intro n ds; rfl
  | succ f ih =>
    intro n ds
    show (if n / 10 = 0 then _ else _) = (if n / 10 = 0 then _ else _) ++ ds
    by_cases h : n / 10 = 0
    · simp [h]
    · rw [if_neg h, if_neg h, ih (n / 10) [Nat.digitChar (n % 10)],
        ih (n / 10) (Nat.digitChar (n % 10) :: ds), List.append_assoc]
      rfl

theorem toDigitsCore_fuel (f : Nat) :
    ∀ (f' n : Nat) (ds : List Char), n < f → n < f' →
      Nat.toDigitsCore 10 f n ds = Nat.toDigitsCore 10 f' n ds := by
  induction f with
  | zero => intro f' n ds h; omega
  | succ f ih =>
    intro f' n ds h h'
    rcases f' with _ | f'
    · omega
    show (if n / 10 = 0 then _ else _) = (if n / 10 = 0 then _ else _)
    by_cases h0 : n / 10 = 0
    · simp [h0]
    · rw [if_neg h0, if_neg h0]
      exact ih f' (n / 10) (Nat.digitChar (n % 10) :: ds)
        (by omega) (by omega)

theorem toDigits_ten_unfold (n : Nat) :
    Nat.toDigits 10 n =
      if n < 10 then [Nat.digitChar n]
      else Nat.toDigits 10 (n / 10) ++ [Nat.digitChar (n % 10)] := by
  by_cases h : n < 10
  · have h0 : n / 10 = 0 := by omega
    have hm : n % 10 = n := by omega
    simp [Nat.toDigits, Nat.toDigitsCore, h0, hm, h]
  · have h0 : ¬ n / 10 = 0 := by omega
    rw [if_neg h]
    show (if n / 10 = 0 then _ else _) = _
    rw [if_neg h0, toDigitsCore_append n (n / 10) [Nat.digitChar (n % 10)],
      toDigitsCore_fuel n (n / 10 + 1) (n / 10) [] (by omega) (by omega)]
    rfl

theorem toDigits_ten_ne_nil (n : Nat) : Nat.toDigits 10 n ≠ [] := by
  rw [toDigits_ten_unfold]
  by_cases h : n < 10
  · simp [h]
  · simp [h]

theorem digitChar_inj_lt_ten :
    ∀ a < 10, ∀ b < 10, Nat.digitChar a = Nat.digitChar b → a = b := by
  decide

theorem toDigits_ten_injective (a : Nat) :
    ∀ b, Nat.toDigits 10 a = Nat.toDigits 10 b → a = b := by
  induction a using Nat.strong_induction_on with
  | _ a ih =>
    intro b h
    rw [toDigits_ten_unfold a, toDigits_ten_unfold b] at h
    by_cases ha : a < 10 <;> by_cases hb : b < 10
    · rw [if_pos ha, if_pos hb] at h
      exact digitChar_inj_lt_ten a ha b hb (List.singleton_inj.mp h)
    · rw [if_pos ha, if_neg hb] at h
      have hlen := congrArg List.length h
      simp only [List.length_append, List.length_cons, List.length_nil] at hlen
      exact absurd (List.length_eq_zero.mp (by omega))
        (toDigits_ten_ne_nil (b / 10))
    · rw [if_neg ha, if_pos hb] at h
      have hlen := congrArg List.length h
      simp only [List.length_append, List.length_cons, List.length_nil] at hlen
      exact absurd (List.length_eq_zero.mp (by omega))
        (toDigits_ten_ne_nil (a / 10))
    · rw [if_neg ha, if_neg hb] at h
      have hr := congrArg List.reverse h
      simp only [List.reverse_append, List.reverse_cons, List.reverse_nil,
        List.nil_append, List.cons_append] at hr
      have hd : Nat.digitChar (a % 10) = Nat.digitChar (b % 10) :=
        (List.cons.injEq _ _ _ _ ▸ hr).1
      have ht : Nat.toDigits 10 (a / 10) = Nat.toDigits 10 (b / 10) := by
        have := (List.cons.injEq _ _ _ _ ▸ hr).2
        have := congrArg List.reverse this
        simpa using this
      have hdiv : a / 10 = b / 10 := ih (a / 10) (by omega) (b / 10) ht
      have hmod : a % 10 = b % 10 :=
        digitChar_inj_lt_ten (a % 10) (by omega) (b % 10) (by omega) hd
      omega

theorem nat_repr_injective {a b : Nat} (h : Nat.repr a = Nat.repr b) :
    a = b := by
  apply toDigits_ten_injective
  have : (Nat.toDigits 10 a).asString.data = (Nat.toDigits 10 b).asString.data :=
    congrArg String.data h
  simpa [List.asString] using this

theorem eventId_injective {a b : Nat} (h : eventId a = eventId b) : a = b := by
  apply nat_repr_injective
  have hd : ("swe-" ++ Nat.repr a).data = ("swe-" ++ Nat.repr b).data :=
    congrArg String.data h
  simp only [String.data_append] at hd
  exact String.ext (List.append_cancel_left hd)

theorem eventId_ne_empty (c : Nat) : eventId c ≠ "" := by
  intro h
  have : ("swe-" ++ Nat.repr c).data = ("" : String).data := congrArg String.data h
  simp [String.data_append] at this

theorem dictGet_dictSet (d : List (String × String)) (k v : String) :
    dictGet (dictSet d k v) k = some v := by
  induction d with
  | nil => simp [dictGet, dictSet]
  | cons kv rest ih =>
    obtain ⟨k', v'⟩ := kv
    by_cases h : k' = k
    · simp [dictGet, dictSet, h]
    · simp [dictGet, dictSet, h, ih]

/-- C10: marker-id assignment is idempotent per element — the first `on()`
or `bind_value()` binding call on an element assigns the fresh id
`swe-<counter>` as its `data-sw-id` attribute and advances the global
generator; every later binding call on that element returns the same id
without consuming a fresh one; and ids minted at distinct generator
positions (hence the ids of distinct first-time elements) are always
distinct. -/
theorem marker_id_assignment (el : PyElement) (c : Nat) :
    (dictGet el.attrs "data-sw-id" = none →
      ensureElemMarker el c
        = (eventId c, ⟨dictSet el.attrs "data-sw-id" (eventId c)⟩, c + 1)) ∧
    (∀ i el' c', ensureElemMarker el c = (i, el', c') →
      ensureElemMarker el' c' = (i, el', c')) ∧
    (∀ c₂, c ≠ c₂ → eventId c ≠ eventId c₂) ∧
    (∀ el₂, dictGet el.attrs "data-sw-id" = none →
      dictGet el₂.attrs "data-sw-id" = none →
      (ensureElemMarker el₂ (ensureElemMarker el c).2.2).1
        ≠ (ensureElemMarker el c).1) := by
  refine ⟨fun h => ?_, fun i el' c' h => ?_, fun c₂ hne h => ?_,
    fun el₂ h1 h2 => ?_⟩
  · simp [ensureElemMarker, h]
  · rcases hg : dictGet el.attrs "data-sw-id" with _ | s
    · simp only [ensureElemMarker, hg] at h
      injection h with h1 h23
      injection h23 with h2 h3
      subst h1
      subst h2
      subst h3
      simp [ensureElemMarker, dictGet_dictSet, eventId_ne_empty]
    · by_cases hs : s = ""
      · simp only [ensureElemMarker, hg, if_pos hs] at h
        injection h with h1 h23
        injection h23 with h2 h3
        subst h1
        subst h2
        subst h3
        simp [ensureElemMarker, dictGet_dictSet, eventId_ne_empty]
      · simp only [ensureElemMarker, hg, if_neg hs] at h
        injection h with h1 h23
        injection h23 with h2 h3
        subst h1
        subst h2
        subst h3
        simp [ensureElemMarker, hg, hs]
  · exact hne (eventId_injective h)
  · simp only [ensureElemMarker, h1, h2]
    intro hEq
    have := eventId_injective hEq
    omega

/-- C10 witness: a first binding call on an unmarked element at generator
position 5 assigns `swe-5` and advances the generator; a second call
returns the same id unchanged; the next first-time element receives the
distinct id `swe-6`. -/
theorem marker_id_assignment_witness :
    ensureElemMarker ⟨[("class", "x")]⟩ 5
      = ("swe-5", ⟨[("class", "x"), ("data-sw-id", "swe-5")]⟩, 6) ∧
    ensureElemMarker ⟨[("class", "x"), ("data-sw-id", "swe-5")]⟩ 6
      = ("swe-5", ⟨[("class", "x"), ("data-sw-id", "swe-5")]⟩, 6) ∧
    eventId 5 ≠ eventId 6 ∧
    (ensureElemMarker ⟨[]⟩ (ensureElemMarker ⟨[("class", "x")]⟩ 5).2.2).1
      ≠ (ensureElemMarker ⟨[("class", "x")]⟩ 5).1 := by
  have h := marker_id_assignment ⟨[("class", "x")]⟩ 5
  refine ⟨(h.1 (by decide)).trans (by decide), ?_, h.2.2.1 6 (by decide),
    h.2.2.2 ⟨[]⟩ (by decide) (by decide)⟩
  have h2 := h.2.1 "swe-5" ⟨[("class", "x"), ("data-sw-id", "swe-5")]⟩ 6
    ((h.1 (by decide)).trans (by decide))
  exact h2

end Sitewinder
